import Mathlib

/-!
Shallow embedding of the readme-gen tool (src/readme_gen/scanner.py and
src/readme_gen/generator.py), together with theorems settling the frozen
claims about its scanning heuristics, prompt construction and provider
dispatch.

Modelling conventions:
- A filesystem path is a list of segments (the `parts` of a Python
  `pathlib.Path`).  `Path.rglob` of the scanned root is modelled by an
  explicit list of entries in traversal order, each carrying its parts
  relative to the root and whether it is a regular file; the absolute
  parts of an entry are the concatenation of the root parts and the
  entry parts, exactly as `pathlib` forms them when joining paths.
- A structured marker file (pyproject.toml, package.json, Cargo.toml) is
  modelled as `Option (Option T)`: `none` means the file does not exist,
  `some none` means it exists but the structured parse raises (the
  `except Exception: pass` path), `some (some t)` means it parses to `t`.
  Only the keys the code actually reads are modelled.
- The generator is modelled up to its first side effect beyond reads of
  the environment: the result type `GenOutcome` records either the
  exception raised (KeyError from a failed dict lookup, ValueError from
  an explicit raise) or the single blocking HTTP POST that would be
  issued, with its url, auth material, model, prompt and timeout.
  `os.environ` is a partial map from variable names to strings.
-/

namespace ReadmeGen

/-! ## Scanner data model (scanner.py) -/

/-- One entry produced by the recursive glob of the scanned root:
its path parts relative to the root, and whether it is a regular file
(directories are also yielded by `rglob` but never collected). -/
structure FSEntry where
  parts : List String
  isFile : Bool
deriving DecidableEq, Repr

/-- The `[project]` table of a parsed pyproject.toml, restricted to the
keys `_detect_python` reads: `description`, `name`, the keys of
`[project.scripts]` in order, and the `dependencies` array. -/
structure PyProjectTable where
  description : Option String
  name : Option String
  scripts : List String
  dependencies : List String
deriving DecidableEq, Repr

/-- A parsed package.json, restricted to the keys `_detect_node` reads:
`description`, `name`, the keys of `scripts`, and the keys of the
`dependencies` object in order. -/
structure PackageJson where
  description : Option String
  name : Option String
  scripts : List String
  dependencies : List String
deriving DecidableEq, Repr

/-- The `[package]` table of a parsed Cargo.toml, restricted to the keys
`_detect_rust` reads. -/
structure CargoPackage where
  description : Option String
  name : Option String
deriving DecidableEq, Repr

/-- The scanned directory: its basename (`path.name`), the parts of the
root path itself, the recursive listing in traversal order, and the
marker files the four detectors probe.  For each structured marker,
`none` = absent, `some none` = present but unparseable,
`some (some t)` = present and parsing to `t`. -/
structure ProjectDir where
  name : String
  rootParts : List String
  entries : List FSEntry
  pyproject : Option (Option PyProjectTable)
  requirements : Bool
  packageJson : Option (Option PackageJson)
  tsconfig : Bool
  gomod : Bool
  cargo : Option (Option CargoPackage)
deriving DecidableEq, Repr

/-- The context dict built by `scan_project`. -/
structure Context where
  name : String
  type : String
  description : String
  languages : List String
  entry_command : String
  install_command : String
  features : List String
  dependencies : List String
  files : List String
deriving DecidableEq, Repr

/-- The ignored directory segments of `_collect_files`. -/
def IGNORE : List String :=
  [".git", "__pycache__", "node_modules", ".venv", "venv", "dist", "build"]

/-- `any(ignored in item.parts for ignored in ignore)`. -/
def ignoredPath (parts : List String) : Bool :=
  IGNORE.any (fun ig => parts.contains ig)

/-- `str(item.relative_to(path))`: the root-relative parts joined by the
path separator. -/
def relStr (e : FSEntry) : String :=
  String.intercalate "/" e.parts

/-- The loop body of `_collect_files`: walk the remaining entries,
skip any whose absolute parts contain an ignored segment, append the
relative path of each regular file, and break once the accumulated list
has reached `maxFiles` entries (the length test runs after the append,
as in the source). -/
def collectLoop (rootParts : List String) (maxFiles : Nat) :
    List FSEntry → List String → List String
  | [], files => files
  | item :: rest, files =>
    if ignoredPath (rootParts ++ item.parts) then
      collectLoop rootParts maxFiles rest files
    else if item.isFile then
      let files' := files ++ [relStr item]
      if maxFiles ≤ files'.length then files'
      else collectLoop rootParts maxFiles rest files'
    else
      collectLoop rootParts maxFiles rest files

/-- `_collect_files(path, max_files)`. -/
def collect_files (d : ProjectDir) (maxFiles : Nat) : List String :=
  collectLoop d.rootParts maxFiles d.entries []

/-- `d.split('>=')[0].split('==')[0]`: strip a `>=` or `==` version
qualifier down to the bare package name. -/
def stripVersion (s : String) : String :=
  (((s.splitOn ">=").headD "").splitOn "==").headD ""

/-- `_detect_python(path, context)`. -/
def detect_python (d : ProjectDir) (context : Context) : Context :=
  let context :=
    match d.pyproject with
    | none => context
    | some parsed =>
      let context := { context with
        type := "python"
        languages := context.languages ++ ["Python"]
        install_command := "pip install ." }
      match parsed with
      | none => context
      | some project =>
        let context := { context with
          description := project.description.getD ""
          name := project.name.getD context.name }
        let context :=
          match project.scripts with
          | [] => context
          | cmd :: _ => { context with entry_command := cmd }
        { context with
          dependencies := (project.dependencies.take 5).map stripVersion }
  if d.requirements && context.type == "unknown" then
    { context with
      type := "python"
      languages := context.languages ++ ["Python"]
      install_command := "pip install -r requirements.txt" }
  else
    context

/-- `_detect_node(path, context)`.  Note that in the source the
tsconfig.json check sits at function level, outside the
`if package.exists()` block. -/
def detect_node (d : ProjectDir) (context : Context) : Context :=
  let context :=
    match d.packageJson with
    | none => context
    | some parsed =>
      let context := { context with
        type := "node"
        languages := context.languages ++ ["JavaScript"]
        install_command := "npm install" }
      match parsed with
      | none => context
      | some data =>
        let context := { context with
          description := data.description.getD ""
          name := data.name.getD context.name }
        let context :=
          if data.scripts.contains "start" then
            { context with entry_command := "npm start" }
          else if data.scripts.contains "dev" then
            { context with entry_command := "npm run dev" }
          else context
        { context with dependencies := data.dependencies.take 5 }
  if d.tsconfig then
    if context.languages.contains "TypeScript" then context
    else { context with languages := context.languages ++ ["TypeScript"] }
  else
    context

/-- `_detect_go(path, context)`. -/
def detect_go (d : ProjectDir) (context : Context) : Context :=
  if d.gomod then
    { context with
      type := "go"
      languages := context.languages ++ ["Go"]
      install_command := "go install"
      entry_command := "go run ." }
  else
    context

/-- `_detect_rust(path, context)`. -/
def detect_rust (d : ProjectDir) (context : Context) : Context :=
  match d.cargo with
  | none => context
  | some parsed =>
    let context := { context with
      type := "rust"
      languages := context.languages ++ ["Rust"]
      install_command := "cargo install --path ."
      entry_command := "cargo run" }
    match parsed with
    | none => context
    | some package =>
      { context with
        description := package.description.getD ""
        name := package.name.getD context.name }

/-- `scan_project(path)`. -/
def scan_project (d : ProjectDir) : Context :=
  let context : Context := {
    name := d.name
    type := "unknown"
    description := ""
    languages := []
    entry_command := ""
    install_command := ""
    features := []
    dependencies := []
    files := [] }
  let context := { context with files := collect_files d 50 }
  let context := detect_python d context
  let context := detect_node d context
  let context := detect_go d context
  detect_rust d context

/-! ## Generator data model (generator.py) -/

/-- One entry of the `PROVIDERS` table. -/
structure ProviderInfo where
  url : String
  key_env : Option String
  default_model : String
deriving DecidableEq, Repr

def anthropicInfo : ProviderInfo := {
  url := "https://api.anthropic.com/v1/messages"
  key_env := some "ANTHROPIC_API_KEY"
  default_model := "claude-sonnet-4-20250514" }

def openaiInfo : ProviderInfo := {
  url := "https://api.openai.com/v1/chat/completions"
  key_env := some "OPENAI_API_KEY"
  default_model := "gpt-4o" }

def googleInfo : ProviderInfo := {
  url := "https://generativelanguage.googleapis.com/v1beta/models/{model}:generateContent"
  key_env := some "GOOGLE_API_KEY"
  default_model := "gemini-1.5-flash" }

def ollamaInfo : ProviderInfo := {
  url := "http://localhost:11434/api/generate"
  key_env := none
  default_model := "llama3.2" }

/-- The `PROVIDERS` dict, as an association list in insertion order. -/
def PROVIDERS : List (String × ProviderInfo) :=
  [("anthropic", anthropicInfo), ("openai", openaiInfo),
   ("google", googleInfo), ("ollama", ollamaInfo)]

/-- `PROVIDERS[name]` as a partial lookup; a `none` result is where the
Python dict indexing raises `KeyError`. -/
def lookupProvider (name : String) : Option ProviderInfo :=
  PROVIDERS.lookup name

/-- `os.environ`: a partial map from variable names to values. -/
def Env : Type := String → Option String

/-- The exception a run of `generate_readme` can raise before reaching
the network: a `KeyError` from a failed dict lookup, or a `ValueError`
from an explicit raise. -/
inductive GenError where
  | keyError (key : String)
  | valueError (msg : String)
deriving DecidableEq, Repr

/-- What `generate_readme` does, modelled up to its first side effect
beyond environment reads: either an exception is raised, or a single
blocking HTTP POST is issued with the given url, auth-header material
(`none` when no auth header is sent), model, prompt and timeout in
seconds. -/
inductive GenOutcome where
  | error (e : GenError)
  | networkCall (url : String) (auth : Option String) (model : String)
      (prompt : String) (timeoutSecs : Nat)
deriving DecidableEq, Repr

/-- `_build_prompt(context)`.  The source reads the fields through
`dict.get` with fallbacks, but every key is always present in the dict
`scan_project` builds, so the fields are read directly here. -/
def build_prompt (context : Context) : String :=
  let files_str :=
    String.intercalate "\n" ((context.files.take 30).map (fun f => "  - " ++ f))
  let deps_str :=
    let joined := String.intercalate ", " context.dependencies
    if joined = "" then "none detected" else joined
  "Generate a README.md for this project.\n\nPROJECT INFO:\n- Name: "
    ++ context.name
    ++ "\n- Type: " ++ context.type
    ++ "\n- Description: " ++ context.description
    ++ "\n- Languages: " ++ String.intercalate ", " context.languages
    ++ "\n- Install: " ++ context.install_command
    ++ "\n- Run: " ++ context.entry_command
    ++ "\n- Key dependencies: " ++ deps_str
    ++ "\n\nFILES:\n" ++ files_str
    ++ "\n\nREQUIREMENTS (HN-optimized):\n1. Title format: \"# [project-name] - [verb] [noun] in [metric]\" (e.g., \"Generate README in 60s\")\n2. First paragraph: State the problem this solves (2-3 sentences max)\n3. Quick Start: EXACTLY 3 steps with code blocks\n4. Features: 3-5 bullet points, each one line\n5. License: MIT\n6. No walls of text. Be concise.\n\nOUTPUT: Raw markdown only, no code fences around it."

/-- `_call_anthropic(prompt, model)`: `if not api_key` raises for an
unset or empty credential; otherwise a POST with an x-api-key header
and a 60 second timeout. -/
def call_anthropic (env : Env) (prompt model : String) : GenOutcome :=
  match env "ANTHROPIC_API_KEY" with
  | none => .error (.valueError "ANTHROPIC_API_KEY not set")
  | some key =>
    if key = "" then .error (.valueError "ANTHROPIC_API_KEY not set")
    else .networkCall anthropicInfo.url (some key) model prompt 60

/-- `_call_openai(prompt, model)`: bearer-token header, 60 second
timeout. -/
def call_openai (env : Env) (prompt model : String) : GenOutcome :=
  match env "OPENAI_API_KEY" with
  | none => .error (.valueError "OPENAI_API_KEY not set")
  | some key =>
    if key = "" then .error (.valueError "OPENAI_API_KEY not set")
    else .networkCall openaiInfo.url (some ("Bearer " ++ key)) model prompt 60

/-- `_call_google(prompt, model)`: the model is substituted into the url
template and the key is passed as a query parameter, with no auth
header; 60 second timeout. -/
def call_google (env : Env) (prompt model : String) : GenOutcome :=
  match env "GOOGLE_API_KEY" with
  | none => .error (.valueError "GOOGLE_API_KEY not set")
  | some key =>
    if key = "" then .error (.valueError "GOOGLE_API_KEY not set")
    else
      .networkCall ((googleInfo.url.replace "{model}" model) ++ "?key=" ++ key)
        none model prompt 60

/-- `_call_ollama(prompt, model)`: no credential check at all, a POST to
the local daemon with a 120 second timeout. -/
def call_ollama (_env : Env) (prompt model : String) : GenOutcome :=
  .networkCall ollamaInfo.url none model prompt 120

/-- `generate_readme(context)`.  The default argument of
`os.environ.get('LLM_MODEL', PROVIDERS[provider]['default_model'])` is
evaluated eagerly, so an unknown provider raises `KeyError` at that
lookup, before the dispatch chain and its final `ValueError` are ever
reached; the `match` on `lookupProvider` models that evaluation order. -/
def generate_readme (env : Env) (context : Context) : GenOutcome :=
  let provider := (env "LLM_PROVIDER").getD "anthropic"
  match lookupProvider provider with
  | none => .error (.keyError provider)
  | some info =>
    let model := (env "LLM_MODEL").getD info.default_model
    let prompt := build_prompt context
    if provider = "anthropic" then call_anthropic env prompt model
    else if provider = "openai" then call_openai env prompt model
    else if provider = "google" then call_google env prompt model
    else if provider = "ollama" then call_ollama env prompt model
    else .error (.valueError ("Unknown provider: " ++ provider))

/-! ## Spec-side definitions used to state the claims -/

/-- The condition under which the `_collect_files` loop keeps an entry:
no ignored segment among the absolute parts, and a regular file. -/
def qualifies (rootParts : List String) (e : FSEntry) : Bool :=
  !ignoredPath (rootParts ++ e.parts) && e.isFile

/-- The files section of the prompt: the first 30 collected paths, one
per line, indented. -/
def files_section (c : Context) : String :=
  String.intercalate "\n" ((c.files.take 30).map (fun f => "  - " ++ f))

/-- The dependency list of the prompt: comma-joined names, with the
placeholder when the join is empty. -/
def deps_section (c : Context) : String :=
  let joined := String.intercalate ", " c.dependencies
  if joined = "" then "none detected" else joined

/-- The prompt text from its start up to the dependency list. -/
def promptHead (c : Context) : String :=
  "Generate a README.md for this project.\n\nPROJECT INFO:\n- Name: "
    ++ c.name
    ++ "\n- Type: " ++ c.type
    ++ "\n- Description: " ++ c.description
    ++ "\n- Languages: " ++ String.intercalate ", " c.languages
    ++ "\n- Install: " ++ c.install_command
    ++ "\n- Run: " ++ c.entry_command
    ++ "\n- Key dependencies: "

/-- The fixed requirements text closing the prompt. -/
def promptTail : String :=
  "\n\nREQUIREMENTS (HN-optimized):\n1. Title format: \"# [project-name] - [verb] [noun] in [metric]\" (e.g., \"Generate README in 60s\")\n2. First paragraph: State the problem this solves (2-3 sentences max)\n3. Quick Start: EXACTLY 3 steps with code blocks\n4. Features: 3-5 bullet points, each one line\n5. License: MIT\n6. No walls of text. Be concise.\n\nOUTPUT: Raw markdown only, no code fences around it."

/-! ## Concrete sample inputs -/

/-- An empty context record, as `scan_project` initialises it for a
root named `x` before any detector runs. -/
def ctxEmpty : Context := {
  name := "x", type := "unknown", description := "", languages := [],
  entry_command := "", install_command := "", features := [],
  dependencies := [], files := [] }

/-- A context with every field populated, to probe field preservation. -/
def ctxProbe : Context := {
  name := "probe", type := "unknown", description := "prior",
  languages := ["X"], entry_command := "run", install_command := "inst",
  features := [], dependencies := ["d1"], files := ["f1"] }

/-- A context whose dependency list is empty, to probe the prompt
placeholder. -/
def ctxPrompt : Context := {
  name := "p", type := "python", description := "d", languages := ["Python"],
  entry_command := "p", install_command := "pip install .", features := [],
  dependencies := [], files := ["a.py", "b.py"] }

/-- A parsed Cargo.toml `[package]` table. -/
def cargoEx : CargoPackage := { description := some "A CLI tool", name := some "mytool" }

/-- A directory holding both a go.mod and a (parseable) Cargo.toml. -/
def dirGoRust : ProjectDir := {
  name := "proj", rootParts := ["proj"], entries := [],
  pyproject := none, requirements := false, packageJson := none,
  tsconfig := false, gomod := true, cargo := some (some cargoEx) }

/-- A parsed pyproject.toml `[project]` table with a description, a
name, one script and two versioned dependencies. -/
def pyEx : PyProjectTable := {
  description := some "A test project", name := some "test-project",
  scripts := ["testcli"], dependencies := ["click>=8.0", "rich>=13.0"] }

/-- A directory whose only marker file is that pyproject.toml. -/
def dirPyOnly : ProjectDir := {
  name := "tmp", rootParts := ["tmp"],
  entries := [FSEntry.mk ["pyproject.toml"] true],
  pyproject := some (some pyEx), requirements := false, packageJson := none,
  tsconfig := false, gomod := false, cargo := none }

/-- A directory whose pyproject.toml, package.json and Cargo.toml all
exist but fail to parse. -/
def dirMalformed : ProjectDir := {
  name := "broken", rootParts := ["broken"], entries := [],
  pyproject := some none, requirements := false, packageJson := some none,
  tsconfig := false, gomod := false, cargo := some none }

/-- A directory holding a tsconfig.json but no package.json. -/
def dirTsOnly : ProjectDir := {
  name := "tsproj", rootParts := ["tsproj"], entries := [],
  pyproject := none, requirements := false, packageJson := none,
  tsconfig := true, gomod := false, cargo := none }

/-- A project located below a directory named `build`, with ordinary
files inside. -/
def dirUnderBuild : ProjectDir := {
  name := "proj", rootParts := ["home", "user", "build", "proj"],
  entries := [FSEntry.mk ["main.py"] true, FSEntry.mk ["src"] false,
              FSEntry.mk ["src", "app.py"] true],
  pyproject := none, requirements := false, packageJson := none,
  tsconfig := false, gomod := false, cargo := none }

/-- A root mixing ordinary files with a populated node_modules tree,
mirroring the end-to-end example of the spec. -/
def dirMixed : ProjectDir := {
  name := "app", rootParts := ["app"],
  entries := [FSEntry.mk ["main.py"] true, FSEntry.mk ["node_modules"] false,
              FSEntry.mk ["node_modules", "pkg.js"] true, FSEntry.mk ["src"] false,
              FSEntry.mk ["src", "app.py"] true],
  pyproject := none, requirements := false, packageJson := none,
  tsconfig := false, gomod := false, cargo := none }

/-- An environment with no variable set. -/
def envEmpty : Env := fun _ => none

/-- An environment selecting a provider outside the table. -/
def envUnknownProvider : Env :=
  fun k => if k = "LLM_PROVIDER" then some "mistral" else none

/-- An environment selecting a provider outside the table while also
setting LLM_MODEL. -/
def envUnknownWithModel : Env :=
  fun k =>
    if k = "LLM_PROVIDER" then some "mistral"
    else if k = "LLM_MODEL" then some "custom-model"
    else none

/-! ## Helper lemmas -/

theorem collectLoop_eq (rp : List String) (n : Nat) (es : List FSEntry) :
    ∀ acc : List String, acc.length < n →
    collectLoop rp n es acc =
      acc ++ ((es.filter (qualifies rp)).map relStr).take (n - acc.length) := by
  induction es with
  | nil => intro acc _; simp [collectLoop]
  | cons e rest ih =>
    intro acc hacc
    cases hig : ignoredPath (rp ++ e.parts) with
    | true =>
      have hq : qualifies rp e = false := by simp [qualifies, hig]
      simp [collectLoop, hig, hq, List.filter_cons, ih acc hacc]
    | false =>
      cases hf : e.isFile with
      | false =>
        have hq : qualifies rp e = false := by simp [qualifies, hig, hf]
        simp [collectLoop, hig, hf, hq, List.filter_cons, ih acc hacc]
      | true =>
        have hq : qualifies rp e = true := by simp [qualifies, hig, hf]
        by_cases hn : n ≤ acc.length + 1
        · have hn' : n = acc.length + 1 := le_antisymm hn hacc
          have ht : n - acc.length = 1 := by omega
          simp [collectLoop, hig, hf, hq, List.filter_cons, hn, ht]
        · push_neg at hn
          have hrec := ih (acc ++ [relStr e]) (by simp; omega)
          have ht : n - acc.length = (n - (acc.length + 1)) + 1 := by omega
          simp only [collectLoop, hig, Bool.false_eq_true, if_false, hf, if_true,
            List.length_append, List.length_singleton]
          rw [if_neg (by omega)]
          rw [hrec]
          simp [List.filter_cons, hq, ht, List.append_assoc]

theorem collect_files_eq (d : ProjectDir) :
    collect_files d 50 =
      ((d.entries.filter (qualifies d.rootParts)).map relStr).take 50 := by
  have h := collectLoop_eq d.rootParts 50 d.entries [] (by simp)
  simpa [collect_files] using h

theorem detect_python_files (d : ProjectDir) (c : Context) :
    (detect_python d c).files = c.files := by
  rcases hd : d.pyproject with _ | (_ | project)
  · simp only [detect_python, hd]; split <;> rfl
  · simp only [detect_python, hd]; split <;> rfl
  · simp only [detect_python, hd]
    rcases hs : project.scripts with _ | ⟨cmd, rest⟩ <;>
      (simp only [hs]; split <;> rfl)

theorem detect_node_files (d : ProjectDir) (c : Context) :
    (detect_node d c).files = c.files := by
  rcases hd : d.packageJson with _ | (_ | data)
  · simp only [detect_node, hd]; split <;> (try split) <;> rfl
  · simp only [detect_node, hd]; split <;> (try split) <;> rfl
  · simp only [detect_node, hd]
    cases h1 : data.scripts.contains "start" <;>
      cases h2 : data.scripts.contains "dev" <;>
      simp only [h1, h2, Bool.false_eq_true, if_true, if_false] <;>
      split <;> (try split) <;> rfl

theorem detect_go_files (d : ProjectDir) (c : Context) :
    (detect_go d c).files = c.files := by
  unfold detect_go
  split <;> rfl

theorem detect_rust_files (d : ProjectDir) (c : Context) :
    (detect_rust d c).files = c.files := by
  unfold detect_rust
  cases d.cargo with
  | none => rfl
  | some parsed => cases parsed <;> rfl

theorem scan_project_files (d : ProjectDir) :
    (scan_project d).files =
      ((d.entries.filter (qualifies d.rootParts)).map relStr).take 50 := by
  unfold scan_project
  rw [detect_rust_files, detect_go_files, detect_node_files, detect_python_files]
  exact collect_files_eq d

theorem detect_rust_type (d : ProjectDir) (c : Context) (pkg : Option CargoPackage)
    (h : d.cargo = some pkg) : (detect_rust d c).type = "rust" := by
  simp only [detect_rust, h]
  cases pkg <;> rfl

/-! ## Claims -/

/-- Claim C1: whenever a directory holds both a go.mod and a Cargo.toml,
`scan_project` classifies it as rust, because the detectors run in the
fixed order Python, Node, Go, Rust and the rust detector, running last,
overwrites the type whenever its marker file exists. -/
theorem scan_project_go_and_cargo_is_rust (d : ProjectDir) (pkg : Option CargoPackage)
    (hgo : d.gomod = true) (hcargo : d.cargo = some pkg) :
    (scan_project d).type = "rust" := by
  unfold scan_project
  exact detect_rust_type d _ pkg hcargo

/-- Witness for C1 at a concrete directory with both marker files. -/
theorem scan_project_go_and_cargo_is_rust_witness :
    dirGoRust.gomod = true ∧ dirGoRust.cargo = some (some cargoEx) ∧
      (scan_project dirGoRust).type = "rust" :=
  ⟨rfl, rfl, scan_project_go_and_cargo_is_rust dirGoRust (some cargoEx) rfl rfl⟩

/-- Claim C2: the files list of a scan is exactly the first 50
qualifying entries in traversal order, mapped to root-relative path
strings; hence it has at most 50 entries and every member comes from a
regular file none of whose relative path segments is ignored. -/
theorem scan_project_files_spec (d : ProjectDir) :
    (scan_project d).files =
        ((d.entries.filter (qualifies d.rootParts)).map relStr).take 50
    ∧ (scan_project d).files.length ≤ 50
    ∧ ∀ s ∈ (scan_project d).files, ∃ e, e ∈ d.entries ∧ e.isFile = true ∧
        s = relStr e ∧ ∀ ig ∈ IGNORE, ig ∉ e.parts := by
  refine ⟨scan_project_files d, ?_, ?_⟩
  · rw [scan_project_files d, List.length_take]
    exact Nat.min_le_left _ _
  · intro s hs
    rw [scan_project_files d] at hs
    have hs' := List.mem_of_mem_take hs
    rcases List.mem_map.mp hs' with ⟨e, he, rfl⟩
    rcases List.mem_filter.mp he with ⟨he1, he2⟩
    have hq : ignoredPath (d.rootParts ++ e.parts) = false ∧ e.isFile = true := by
      simpa [qualifies] using he2
    refine ⟨e, he1, hq.2, rfl, ?_⟩
    intro ig hig hmem
    have : ignoredPath (d.rootParts ++ e.parts) = true := by
      simp only [ignoredPath, List.any_eq_true]
      exact ⟨ig, hig, by simp [List.mem_append, hmem]⟩
    rw [hq.1] at this
    exact Bool.false_ne_true this

/-- Witness for C2 at the end-to-end example: node_modules contents are
excluded, ordinary files kept in order as relative paths. -/
theorem scan_project_files_spec_witness :
    (scan_project dirMixed).files = ["main.py", "src/app.py"] := by
  rw [(scan_project_files_spec dirMixed).1]
  rfl

/-- Claim C10: the ignore filter tests the parts of the absolute path,
segments above the scanned root included, so a root whose own path
contains an ignored segment collects no files at all. -/
theorem scan_project_ignored_ancestor_empty (d : ProjectDir) (ig : String)
    (h1 : ig ∈ IGNORE) (h2 : ig ∈ d.rootParts) :
    (scan_project d).files = [] := by
  rw [scan_project_files d]
  have hfilter : d.entries.filter (qualifies d.rootParts) = [] := by
    rw [List.filter_eq_nil_iff]
    intro e _
    have : ignoredPath (d.rootParts ++ e.parts) = true := by
      simp only [ignoredPath, List.any_eq_true]
      exact ⟨ig, h1, by simp [List.mem_append, h2]⟩
    simp [qualifies, this]
  rw [hfilter]
  rfl

/-- Witness for C10 at a project living under a directory named build:
its real files are all dropped. -/
theorem scan_project_ignored_ancestor_empty_witness :
    "build" ∈ IGNORE ∧ "build" ∈ dirUnderBuild.rootParts ∧
      (scan_project dirUnderBuild).files = [] :=
  ⟨by decide, by decide,
    scan_project_ignored_ancestor_empty dirUnderBuild "build"
      (by decide) (by decide)⟩

/-- Claim C3: for a directory whose only marker file is a well-formed
pyproject.toml declaring a description, a name, one script and at most
five dependencies, the scan reports type python, the declared name and
description, the script key as entry command, and the version-stripped
dependency names. -/
theorem scan_project_python_only (d : ProjectDir) (tbl : PyProjectTable)
    (desc nm cmd : String)
    (hpy : d.pyproject = some (some tbl))
    (hdesc : tbl.description = some desc)
    (hnm : tbl.name = some nm)
    (hscripts : tbl.scripts = [cmd])
    (hdeps : tbl.dependencies.length ≤ 5)
    (hreq : d.requirements = false)
    (hnode : d.packageJson = none)
    (hts : d.tsconfig = false)
    (hgo : d.gomod = false)
    (hcargo : d.cargo = none) :
    (scan_project d).type = "python"
    ∧ (scan_project d).name = nm
    ∧ (scan_project d).description = desc
    ∧ (scan_project d).entry_command = cmd
    ∧ (scan_project d).dependencies = tbl.dependencies.map stripVersion := by
  unfold scan_project
  simp only [detect_rust, hcargo, detect_go, hgo, Bool.false_eq_true, if_false,
    detect_node, hnode, hts, detect_python, hpy, hdesc, hnm, hscripts, hreq,
    Option.getD_some, Bool.false_and]
  rw [List.take_of_length_le hdeps]
  simp

/-- Witness for C3 at a concrete pyproject.toml with two versioned
dependencies. -/
theorem scan_project_python_only_witness :
    (scan_project dirPyOnly).type = "python"
    ∧ (scan_project dirPyOnly).name = "test-project"
    ∧ (scan_project dirPyOnly).description = "A test project"
    ∧ (scan_project dirPyOnly).entry_command = "testcli"
    ∧ (scan_project dirPyOnly).dependencies = pyEx.dependencies.map stripVersion := by
  exact scan_project_python_only dirPyOnly pyEx "A test project" "test-project"
    "testcli" rfl rfl rfl rfl (by decide) rfl rfl rfl rfl rfl

theorem lookupProvider_eq_none (p : String) (h : p ∉ PROVIDERS.map Prod.fst) :
    lookupProvider p = none := by
  simp only [PROVIDERS, List.map, List.mem_cons, List.not_mem_nil, or_false,
    not_or] at h
  obtain ⟨h1, h2, h3, h4⟩ := h
  have b1 : (p == "anthropic") = false := beq_eq_false_iff_ne.mpr h1
  have b2 : (p == "openai") = false := beq_eq_false_iff_ne.mpr h2
  have b3 : (p == "google") = false := beq_eq_false_iff_ne.mpr h3
  have b4 : (p == "ollama") = false := beq_eq_false_iff_ne.mpr h4
  simp [lookupProvider, PROVIDERS, List.lookup, b1, b2, b3, b4]

/-- Claim C4: a provider name outside the four table keys makes
`generate_readme` raise before any HTTP request is attempted: the
outcome is an error, never a network call. -/
theorem generate_readme_unknown_provider_raises (env : Env) (ctx : Context) (p : String)
    (hp : (env "LLM_PROVIDER").getD "anthropic" = p)
    (hnot : p ∉ PROVIDERS.map Prod.fst) :
    generate_readme env ctx = GenOutcome.error (GenError.keyError p)
    ∧ ∀ url auth model prompt t,
        generate_readme env ctx ≠ GenOutcome.networkCall url auth model prompt t := by
  have hl := lookupProvider_eq_none p hnot
  constructor
  · simp only [generate_readme, hp, hl]
  · intro url auth model prompt t
    simp only [generate_readme, hp, hl]
    simp

/-- Witness for C4 at the provider name mistral. -/
theorem generate_readme_unknown_provider_raises_witness :
    "mistral" ∉ PROVIDERS.map Prod.fst ∧
      generate_readme envUnknownProvider ctxEmpty =
        GenOutcome.error (GenError.keyError "mistral") :=
  ⟨by decide,
    (generate_readme_unknown_provider_raises envUnknownProvider ctxEmpty "mistral"
      (by decide) (by decide)).1⟩

/-- Claim C5: for a provider outside the table the eagerly evaluated
default argument `PROVIDERS[provider]['default_model']` raises KeyError
first, even when LLM_MODEL is set, so the explicit
`ValueError("Unknown provider: ...")` branch is unreachable. -/
theorem generate_readme_valueerror_branch_unreachable (env : Env) (ctx : Context)
    (p m : String)
    (hp : env "LLM_PROVIDER" = some p)
    (hm : env "LLM_MODEL" = some m)
    (hnot : p ∉ PROVIDERS.map Prod.fst) :
    generate_readme env ctx = GenOutcome.error (GenError.keyError p)
    ∧ ∀ msg, generate_readme env ctx ≠ GenOutcome.error (GenError.valueError msg) := by
  have hl := lookupProvider_eq_none p hnot
  have hp' : (env "LLM_PROVIDER").getD "anthropic" = p := by rw [hp]; rfl
  constructor
  · simp only [generate_readme, hp', hl]
  · intro msg
    simp only [generate_readme, hp', hl]
    simp

/-- Witness for C5: provider mistral with LLM_MODEL set. -/
theorem generate_readme_valueerror_branch_unreachable_witness :
    envUnknownWithModel "LLM_MODEL" = some "custom-model" ∧
      generate_readme envUnknownWithModel ctxEmpty =
        GenOutcome.error (GenError.keyError "mistral") :=
  ⟨by decide,
    (generate_readme_valueerror_branch_unreachable envUnknownWithModel ctxEmpty
      "mistral" "custom-model" (by decide) (by decide) (by decide)).1⟩

/-- Claim C6: each hosted provider call raises a ValueError before any
network request when its credential variable is unset, while the ollama
call performs no credential check and always reaches its POST. -/
theorem provider_calls_credential_checks (env : Env) (prompt model : String) :
    (env "ANTHROPIC_API_KEY" = none →
      call_anthropic env prompt model =
        GenOutcome.error (GenError.valueError "ANTHROPIC_API_KEY not set"))
    ∧ (env "OPENAI_API_KEY" = none →
      call_openai env prompt model =
        GenOutcome.error (GenError.valueError "OPENAI_API_KEY not set"))
    ∧ (env "GOOGLE_API_KEY" = none →
      call_google env prompt model =
        GenOutcome.error (GenError.valueError "GOOGLE_API_KEY not set"))
    ∧ call_ollama env prompt model =
        GenOutcome.networkCall ollamaInfo.url none model prompt 120 := by
  refine ⟨?_, ?_, ?_, rfl⟩
  · intro h; simp [call_anthropic, h]
  · intro h; simp [call_openai, h]
  · intro h; simp [call_google, h]

/-- Witness for C6 with every environment variable unset. -/
theorem provider_calls_credential_checks_witness :
    call_anthropic envEmpty "p" "m" =
        GenOutcome.error (GenError.valueError "ANTHROPIC_API_KEY not set")
    ∧ call_openai envEmpty "p" "m" =
        GenOutcome.error (GenError.valueError "OPENAI_API_KEY not set")
    ∧ call_google envEmpty "p" "m" =
        GenOutcome.error (GenError.valueError "GOOGLE_API_KEY not set")
    ∧ call_ollama envEmpty "p" "m" =
        GenOutcome.networkCall ollamaInfo.url none "m" "p" 120 := by
  have h := provider_calls_credential_checks envEmpty "p" "m"
  exact ⟨h.1 rfl, h.2.1 rfl, h.2.2.1 rfl, h.2.2.2⟩

/-- Claim C7: when a marker file exists but its structured parse
raises, the detector sets only its marker-driven fields (type,
language, fixed commands) and the fields it would have extracted from
the parsed content (description, name, entry command, dependencies)
keep their incoming values, exactly as if no extraction had happened;
no error is surfaced. -/
theorem detectors_swallow_parse_errors (d : ProjectDir) (c : Context) :
    (d.pyproject = some none →
      detect_python d c =
        { c with
          type := "python",
          languages := c.languages ++ ["Python"],
          install_command := "pip install ." })
    ∧ (d.packageJson = some none → d.tsconfig = false →
      detect_node d c =
        { c with
          type := "node",
          languages := c.languages ++ ["JavaScript"],
          install_command := "npm install" })
    ∧ (d.cargo = some none →
      detect_rust d c =
        { c with
          type := "rust",
          languages := c.languages ++ ["Rust"],
          install_command := "cargo install --path .",
          entry_command := "cargo run" }) := by
  refine ⟨?_, ?_, ?_⟩
  · intro h
    simp only [detect_python, h]
    have hne : ("python" == "unknown") = false := rfl
    simp [hne]
  · intro h hts
    simp only [detect_node, h, hts]
    simp
  · intro h
    simp only [detect_rust, h]

/-- Witness for C7 at a directory whose three structured markers all
fail to parse, with a fully populated incoming context. -/
theorem detectors_swallow_parse_errors_witness :
    detect_python dirMalformed ctxProbe =
      { ctxProbe with
        type := "python",
        languages := ctxProbe.languages ++ ["Python"],
        install_command := "pip install ." }
    ∧ detect_node dirMalformed ctxProbe =
      { ctxProbe with
        type := "node",
        languages := ctxProbe.languages ++ ["JavaScript"],
        install_command := "npm install" }
    ∧ detect_rust dirMalformed ctxProbe =
      { ctxProbe with
        type := "rust",
        languages := ctxProbe.languages ++ ["Rust"],
        install_command := "cargo install --path .",
        entry_command := "cargo run" } := by
  have h := detectors_swallow_parse_errors dirMalformed ctxProbe
  exact ⟨h.1 rfl, h.2.1 rfl rfl, h.2.2 rfl⟩

/-- Counterexample to C8 as stated: in the source the tsconfig.json
check sits outside the `if package.exists()` block, so a directory with
a tsconfig.json and no package.json still gets TypeScript appended. -/
theorem tsconfig_without_package_json_gets_typescript :
    dirTsOnly.packageJson = none ∧
      "TypeScript" ∈ (scan_project dirTsOnly).languages := by
  refine ⟨rfl, ?_⟩
  have h : (scan_project dirTsOnly).languages = ["TypeScript"] := rfl
  rw [h]
  exact List.mem_singleton.mpr rfl

/-- Amended C8: TypeScript is appended exactly when tsconfig.json
exists and TypeScript is not already present, independently of whether
package.json exists. -/
theorem detect_node_typescript_append (d : ProjectDir) (c : Context) :
    (detect_node d c).languages =
      (c.languages ++ (if d.packageJson.isSome then ["JavaScript"] else []))
        ++ (if d.tsconfig = true ∧ "TypeScript" ∉ c.languages
            then ["TypeScript"] else []) := by
  have hne : ("TypeScript" : String) ≠ "JavaScript" := by decide
  rcases hd : d.packageJson with _ | (_ | data)
  · by_cases hm : "TypeScript" ∈ c.languages <;>
      cases hts : d.tsconfig <;>
      simp [detect_node, hd, hts, hm]
  · by_cases hm : "TypeScript" ∈ c.languages <;>
      cases hts : d.tsconfig <;>
      simp [detect_node, hd, hts, hm, List.mem_append, hne]
  · by_cases hm : "TypeScript" ∈ c.languages <;>
      by_cases h1 : "start" ∈ data.scripts <;>
      by_cases h2 : "dev" ∈ data.scripts <;>
      cases hts : d.tsconfig <;>
      simp [detect_node, hd, hts, hm, h1, h2, List.mem_append, hne]

/-- Claim C9: the prompt builder is a pure function of the context
decomposing into a fixed template around the file and dependency
sections: the file section lists exactly the first min(length, 30)
entries, one per line and indented, and the dependency section is the
comma-joined dependency names, replaced by the placeholder when the
dependency list is empty. -/
theorem build_prompt_template (c : Context) :
    build_prompt c =
        promptHead c ++ deps_section c ++ "\n\nFILES:\n"
          ++ files_section c ++ promptTail
    ∧ files_section c =
        String.intercalate "\n" ((c.files.take 30).map (fun f => "  - " ++ f))
    ∧ (c.files.take 30).length = min c.files.length 30
    ∧ (c.dependencies = [] → deps_section c = "none detected") := by
  refine ⟨rfl, rfl, ?_, ?_⟩
  · rw [List.length_take]
    exact Nat.min_comm _ _
  · intro h
    simp [deps_section, h, String.intercalate]

/-- Witness for C9 at a context with two files and no dependencies. -/
theorem build_prompt_template_witness :
    build_prompt ctxPrompt =
        promptHead ctxPrompt ++ deps_section ctxPrompt ++ "\n\nFILES:\n"
          ++ files_section ctxPrompt ++ promptTail
    ∧ deps_section ctxPrompt = "none detected" := by
  have h := build_prompt_template ctxPrompt
  exact ⟨h.1, h.2.2.2 rfl⟩

end ReadmeGen
